import Mathlib

/-!
# Verification of the data-access / statistics core of `roster-ping-pong`

Shallow embedding of the core of the `khemsok/roster-ping-pong` repository:
the record store operations of `src/js/db.js`, the import validator of
`src/js/app.js` (`ExportImport.validateImportData`), and the statistics
functions of the `Stats` module.

Modelling conventions:
* ISO-8601 timestamp strings are order-isomorphic to their epoch values, so
  `createdAt` / `updatedAt` / `date` are modelled as `Nat`.
* Fresh ids (`DB.generateId`) and the current time are nondeterministic inputs;
  the embedded constructors take them as explicit parameters.
* JavaScript numbers are modelled as `Int` (integer counts and scores) and `ℚ`
  (averages and ratios); `Infinity` is the extra constructor of `JNum`.
* IndexedDB object stores are modelled as lists of records keyed by their `id`
  field; `put` is upsert-by-key, `add`/`delete` as in the source.  All theorems
  below are insensitive to the order in which `getAll` enumerates records.
* JavaScript values that may be `undefined` are modelled with `Option`
  (`none` = absent/`undefined`); JS truthiness of a string field
  (`!x` in the source) is `strTruthy` below.
-/

namespace PingPong

/-- A Room record, as built by `DB.createRoom` (src/js/db.js). -/
structure Room where
  id : String
  name : String
  description : String
  createdAt : Nat
  updatedAt : Nat
  deriving DecidableEq, Repr

/-- A Player record, as built by `DB.createPlayer` (src/js/db.js). -/
structure Player where
  id : String
  roomId : String
  name : String
  nickname : String
  createdAt : Nat
  updatedAt : Nat
  deriving DecidableEq, Repr

/-- A Match record, as built by `DB.createMatch` (src/js/db.js). -/
structure Match where
  id : String
  roomId : String
  player1Id : String
  player2Id : String
  player1Score : Int
  player2Score : Int
  winnerId : String
  notes : String
  date : Nat
  deriving DecidableEq, Repr

/-- A Setting record, as built by `DB.saveSetting` (src/js/db.js). -/
structure Setting where
  id : String
  value : String
  updatedAt : Nat
  deriving DecidableEq, Repr

/-- JS `x || ''` applied to a possibly-absent string: `undefined`/`null`
become `''`, and `'' || ''` is `''`, so a present string is kept unchanged. -/
def orEmpty : Option String → String
  | none => ""
  | some s => s

/-- Input to `DB.createRoom`: `roomData` with an optional `description`. -/
structure RoomData where
  name : String
  description : Option String
  deriving DecidableEq, Repr

/-- Input to `DB.createPlayer`: `playerData` with an optional `nickname`. -/
structure PlayerData where
  roomId : String
  name : String
  nickname : Option String
  deriving DecidableEq, Repr

/-- Input to `DB.createMatch`: `matchData`.  The source applies `parseInt` to
the two scores; the model receives the parsed integers. -/
structure MatchData where
  roomId : String
  player1Id : String
  player2Id : String
  player1Score : Int
  player2Score : Int
  notes : Option String
  deriving DecidableEq, Repr

/-- `DB.createRoom` (src/js/db.js lines 130-139): the record built and stored.
`newId` models `this.generateId()` and `now` the creation instant. -/
def createRoom (roomData : RoomData) (newId : String) (now : Nat) : Room :=
  { id := newId
    name := roomData.name
    description := orEmpty roomData.description
    createdAt := now
    updatedAt := now }

/-- `DB.createPlayer` (src/js/db.js lines 307-317): the record built and stored. -/
def createPlayer (playerData : PlayerData) (newId : String) (now : Nat) : Player :=
  { id := newId
    roomId := playerData.roomId
    name := playerData.name
    nickname := orEmpty playerData.nickname
    createdAt := now
    updatedAt := now }

/-- `DB.createMatch` (src/js/db.js lines 527-545): the record built and stored.
The winner is `player1Score > player2Score ? player1Id : player2Id`. -/
def createMatch (matchData : MatchData) (newId : String) (now : Nat) : Match :=
  { id := newId
    roomId := matchData.roomId
    player1Id := matchData.player1Id
    player2Id := matchData.player2Id
    player1Score := matchData.player1Score
    player2Score := matchData.player2Score
    winnerId := if matchData.player1Score > matchData.player2Score
      then matchData.player1Id else matchData.player2Id
    notes := orEmpty matchData.notes
    date := now }

/-! ## The record store -/

/-- The persisted state: the four IndexedDB object stores of src/js/db.js,
each a list of records keyed by `id`. -/
structure Store where
  rooms : List Room
  players : List Player
  «matches» : List Match
  settings : List Setting
  deriving DecidableEq, Repr

/-- The store with all four collections empty. -/
def emptyStore : Store :=
  { rooms := [], players := [], «matches» := [], settings := [] }

/-- Primary-key lookup in a collection (IndexedDB `store.get(key)` where the
record's key is `key x`); `none` models the `undefined` result. -/
def lookupByKey (key : α → String) (l : List α) (k : String) : Option α :=
  l.find? (fun x => key x == k)

/-- IndexedDB `store.put(x)`: replace the record with the same key, or append. -/
def putByKey (key : α → String) (l : List α) (x : α) : List α :=
  if l.any (fun y => key y == key x) then
    l.map (fun y => if key y == key x then x else y)
  else
    l ++ [x]

/-- IndexedDB `store.delete(k)`: remove the record with key `k` (idempotent). -/
def deleteByKey (key : α → String) (l : List α) (k : String) : List α :=
  l.filter (fun x => key x != k)

/-- `DB.getPlayersInRoom` (src/js/db.js): the `roomId` index lookup. -/
def getPlayersInRoom (s : Store) (roomId : String) : List Player :=
  s.players.filter (fun p => p.roomId == roomId)

/-- `DB.getMatchesInRoom` (src/js/db.js): the `roomId` index lookup. -/
def getMatchesInRoom (s : Store) (roomId : String) : List Match :=
  s.«matches».filter (fun m => m.roomId == roomId)

/-- `DB.deleteAllPlayersInRoom` (src/js/db.js lines 457-464): fetch the players
whose `roomId` matches, then delete each fetched player by its own id. -/
def deleteAllPlayersInRoom (s : Store) (roomId : String) : Store :=
  (getPlayersInRoom s roomId).foldl
    (fun st p => { st with players := deleteByKey Player.id st.players p.id }) s

/-- `DB.deleteAllMatchesInRoom` (src/js/db.js lines 685-692): fetch the matches
whose `roomId` matches, then delete each fetched match by its own id. -/
def deleteAllMatchesInRoom (s : Store) (roomId : String) : Store :=
  (getMatchesInRoom s roomId).foldl
    (fun st m => { st with «matches» := deleteByKey Match.id st.«matches» m.id }) s

/-- `DB.deleteRoom` (src/js/db.js lines 254-280): delete the room record, all
players in the room, and all matches in the room (the three sub-operations
touch disjoint object stores, so their interleaving is immaterial). -/
def deleteRoom (s : Store) (id : String) : Store :=
  let s1 := { s with rooms := deleteByKey Room.id s.rooms id }
  let s2 := deleteAllPlayersInRoom s1 id
  deleteAllMatchesInRoom s2 id

/-- `DB.saveSetting` (src/js/db.js lines 702-725): `put` of `{id, value, updatedAt}`. -/
def saveSetting (s : Store) (key value : String) (now : Nat) : Store :=
  { s with settings := putByKey Setting.id s.settings ⟨key, value, now⟩ }

/-- `DB.getSetting` (src/js/db.js lines 732-748): `store.get(key)` and then
`request.result ? request.result.value : null`; `none` models `null`. -/
def getSetting (s : Store) (key : String) : Option String :=
  match lookupByKey Setting.id s.settings key with
  | some r => some r.value
  | none => none

/-! ## Export / import (src/js/db.js) -/

/-- The schema version `DB.version`. -/
def dbVersion : Nat := 1

/-- An export/import bundle as consumed by `DB.importData`: `version` plus
optional collections (`rooms` array or single `room`, `players`, `matches`,
`settings`).  `none` models an absent field. -/
structure Bundle where
  version : Nat
  exportDate : Nat
  rooms : Option (List Room)
  room : Option Room
  players : Option (List Player)
  «matches» : Option (List Match)
  settings : Option (List Setting)
  deriving DecidableEq, Repr

/-- `DB.exportAllData` (src/js/db.js lines 756-795): all rooms, then for each
room the players and matches of that room (concatenated room by room), then
all settings. -/
def exportAllData (s : Store) (now : Nat) : Bundle :=
  { version := dbVersion
    exportDate := now
    rooms := some s.rooms
    room := none
    players := some (s.rooms.map (fun r => getPlayersInRoom s r.id)).flatten
    «matches» := some (s.rooms.map (fun r => getMatchesInRoom s r.id)).flatten
    settings := some s.settings }

/-- `DB.importData` (src/js/db.js lines 827-907): reject when `!data.version`
(a zero/absent version, modelled as `version = 0`); otherwise `put` every
room (or the single `room`), player, match and setting of the bundle. -/
def importData (s : Store) (data : Bundle) : Option Store :=
  if data.version = 0 then none
  else some
    { rooms :=
        match data.rooms with
        | some rs => rs.foldl (putByKey Room.id) s.rooms
        | none =>
          match data.room with
          | some r => putByKey Room.id s.rooms r
          | none => s.rooms
      players :=
        match data.players with
        | some ps => ps.foldl (putByKey Player.id) s.players
        | none => s.players
      «matches» :=
        match data.«matches» with
        | some ms => ms.foldl (putByKey Match.id) s.«matches»
        | none => s.«matches»
      settings :=
        match data.settings with
        | some ss => ss.foldl (putByKey Setting.id) s.settings
        | none => s.settings }

/-! ## The import validator (src/js/app.js, `ExportImport.validateImportData`)

The validator receives externally supplied JSON, so its argument is modelled
by "raw" record types in which every field may be absent (`none` models JS
`undefined`, and for the fields checked only with `!x` also `null`).  A score
field is checked with `=== undefined` only, so its present values (numbers,
`null`, anything non-`undefined`) are modelled by `ScoreVal`. -/

/-- JS truthiness of a possibly-absent string field (`!x` in the source):
`undefined` and `''` are falsy, every other string is truthy. -/
def strTruthy : Option String → Bool
  | none => false
  | some s => !s.isEmpty

/-- JS truthiness of a possibly-absent numeric field (`!x` in the source):
`undefined` and `0` are falsy. -/
def numTruthy : Option Int → Bool
  | none => false
  | some n => n != 0

/-- A present (non-`undefined`) value of a score field in a raw bundle:
JS `null` or a number. -/
inductive ScoreVal where
  | jnull : ScoreVal
  | jnum (n : Int) : ScoreVal
  deriving DecidableEq, Repr

/-- A room record of a raw import bundle. -/
structure RawRoom where
  id : Option String
  name : Option String
  deriving DecidableEq, Repr

/-- A player record of a raw import bundle. -/
structure RawPlayer where
  id : Option String
  roomId : Option String
  name : Option String
  deriving DecidableEq, Repr

/-- A match record of a raw import bundle. -/
structure RawMatch where
  id : Option String
  roomId : Option String
  player1Id : Option String
  player2Id : Option String
  player1Score : Option ScoreVal
  player2Score : Option ScoreVal
  winnerId : Option String
  date : Option String
  deriving DecidableEq, Repr

/-- A raw import bundle (the argument of `validateImportData`).  A present
`rooms`/`players`/`matches` field is an array (a present non-array value is
outside the embedding's domain; the source treats it like an absent one for
`rooms` and ignores it elsewhere). -/
structure RawBundle where
  version : Option Int
  rooms : Option (List RawRoom)
  room : Option RawRoom
  players : Option (List RawPlayer)
  «matches» : Option (List RawMatch)
  deriving DecidableEq, Repr

deriving instance DecidableEq for Except

/-- The raw bundle `{}`: every field absent. -/
def emptyRawBundle : RawBundle :=
  { version := none, rooms := none, room := none, players := none,
    «matches» := none }

/-- The message `Invalid data format: <entity> at index <i> is missing <field>`. -/
def missingAt (entity : String) (i : Nat) (field : String) : String :=
  "Invalid data format: " ++ entity ++ " at index " ++ toString i ++
    " is missing " ++ field

/-- The per-room check of the `data.rooms.forEach` loop: `id` then `name`,
throwing on the first offending field. -/
def checkRoomAt (i : Nat) (r : RawRoom) : Except String Unit :=
  if !strTruthy r.id then .error (missingAt "Room" i "id")
  else if !strTruthy r.name then .error (missingAt "Room" i "name")
  else .ok ()

/-- The check of a single `data.room` object: `id` then `name`. -/
def checkSingleRoom (r : RawRoom) : Except String Unit :=
  if !strTruthy r.id then .error "Invalid data format: Room is missing id"
  else if !strTruthy r.name then .error "Invalid data format: Room is missing name"
  else .ok ()

/-- The per-player check of the `data.players.forEach` loop:
`id`, `roomId`, `name`. -/
def checkPlayerAt (i : Nat) (p : RawPlayer) : Except String Unit :=
  if !strTruthy p.id then .error (missingAt "Player" i "id")
  else if !strTruthy p.roomId then .error (missingAt "Player" i "roomId")
  else if !strTruthy p.name then .error (missingAt "Player" i "name")
  else .ok ()

/-- The per-match check of the `data.matches.forEach` loop, in source order:
`id`, `roomId`, `player1Id`, `player2Id` (truthiness), `player1Score`,
`player2Score` (`=== undefined` only), `winnerId`, `date` (truthiness). -/
def checkMatchAt (i : Nat) (m : RawMatch) : Except String Unit :=
  if !strTruthy m.id then .error (missingAt "Match" i "id")
  else if !strTruthy m.roomId then .error (missingAt "Match" i "roomId")
  else if !strTruthy m.player1Id then .error (missingAt "Match" i "player1Id")
  else if !strTruthy m.player2Id then .error (missingAt "Match" i "player2Id")
  else if m.player1Score.isNone then .error (missingAt "Match" i "player1Score")
  else if m.player2Score.isNone then .error (missingAt "Match" i "player2Score")
  else if !strTruthy m.winnerId then .error (missingAt "Match" i "winnerId")
  else if !strTruthy m.date then .error (missingAt "Match" i "date")
  else .ok ()

/-- A `forEach` loop that throws at the first offending record, counting
indices from `i`. -/
def checkListFrom (check : Nat → α → Except String Unit) :
    Nat → List α → Except String Unit
  | _, [] => .ok ()
  | i, x :: xs =>
    match check i x with
    | .error e => .error e
    | .ok _ => checkListFrom check (i + 1) xs

/-- `ExportImport.validateImportData` (src/js/app.js lines 160-242).  The
`typeof data !== 'object'` guard never fires on a `RawBundle`.  Checks run in
source order: `version`, then "rooms or room", then the `rooms` loop, the
single `room`, the `players` loop and the `matches` loop. -/
def validateImportData (data : RawBundle) : Except String Unit :=
  if !numTruthy data.version then
    .error "Invalid data format: Missing version"
  else if data.rooms.isNone && data.room.isNone then
    .error "Invalid data format: Missing rooms or room"
  else
    match (match data.rooms with
           | some rs => checkListFrom checkRoomAt 0 rs
           | none => .ok ()) with
    | .error e => .error e
    | .ok _ =>
      match (match data.room with
             | some r => checkSingleRoom r
             | none => .ok ()) with
      | .error e => .error e
      | .ok _ =>
        match (match data.players with
               | some ps => checkListFrom checkPlayerAt 0 ps
               | none => .ok ()) with
        | .error e => .error e
        | .ok _ =>
          match data.«matches» with
          | some ms => checkListFrom checkMatchAt 0 ms
          | none => .ok ()

/-! ## The statistics engine (`Stats`, src/unnamed/part_002) -/

/-- A JS number that may be `Infinity` (the value of `winLossRatio`). -/
inductive JNum where
  | fin (q : ℚ) : JNum
  | inf : JNum
  deriving DecidableEq, Repr

/-- JS `Math.round`: round half toward positive infinity. -/
def jsRound (q : ℚ) : Int := ⌊q + 1/2⌋

/-- The output record of `Stats.calculatePlayerStats`. -/
structure PlayerStats where
  «matches» : Nat
  wins : Nat
  losses : Nat
  winPercentage : Int
  currentStreak : Nat
  isWinningStreak : Bool
  avgScoreFor : ℚ
  avgScoreAgainst : ℚ
  winLossRatio : JNum
  deriving DecidableEq, Repr

/-- The per-player filter of `Stats.calculatePlayerStats`:
`match.player1Id === player.id || match.player2Id === player.id`. -/
def playerMatchesOf (p : Player) (ms : List Match) : List Match :=
  ms.filter (fun m => m.player1Id == p.id || m.player2Id == p.id)

/-- `wins`: the player's matches won by the player. -/
def winsOf (p : Player) (ms : List Match) : Nat :=
  ((playerMatchesOf p ms).filter (fun m => m.winnerId == p.id)).length

/-- `losses = playerMatches.length - wins`. -/
def lossesOf (p : Player) (ms : List Match) : Nat :=
  (playerMatchesOf p ms).length - winsOf p ms

/-- `winPercentage = Math.round((wins / playerMatches.length) * 100)`,
`0` on no matches. -/
def winPercentageOf (p : Player) (ms : List Match) : Int :=
  if 0 < (playerMatchesOf p ms).length then
    jsRound (((winsOf p ms : ℚ) / ((playerMatchesOf p ms).length : ℚ)) * 100)
  else 0

/-- The date-descending sort
`[...matches].sort((a, b) => new Date(b.date) - new Date(a.date))`:
JS `Array.prototype.sort` is stable, modelled by a stable insertion sort. -/
def sortByDateDesc (ms : List Match) : List Match :=
  List.insertionSort (fun a b => b.date ≤ a.date) ms

/-- The streak-counting loop of `Stats.calculatePlayerStats` (the
`for (let i = 1; ...)` loop with `break` on the first outcome mismatch),
applied to the tail of the date-descending list. -/
def streakLoop (pid : String) (isWinning : Bool) : List Match → Nat
  | [] => 0
  | m :: rest =>
    if (m.winnerId == pid) == isWinning then 1 + streakLoop pid isWinning rest
    else 0

/-- `isWinningStreak`: whether the most recent of the player's matches (the
head of the date-descending list) was won by the player; `false` on none. -/
def isWinningStreakOf (p : Player) (ms : List Match) : Bool :=
  match sortByDateDesc (playerMatchesOf p ms) with
  | [] => false
  | m :: _ => m.winnerId == p.id

/-- `currentStreak`: `0` on no matches, else `1` for the most recent match
plus the loop count over the rest. -/
def currentStreakOf (p : Player) (ms : List Match) : Nat :=
  match sortByDateDesc (playerMatchesOf p ms) with
  | [] => 0
  | _ :: rest => 1 + streakLoop p.id (isWinningStreakOf p ms) rest

/-- `totalScoreFor`: the player's own score summed over their matches. -/
def totalScoreForOf (p : Player) (ms : List Match) : Int :=
  ((playerMatchesOf p ms).map
    (fun m => if m.player1Id == p.id then m.player1Score else m.player2Score)).sum

/-- `totalScoreAgainst`: the opponent's score summed over the player's matches. -/
def totalScoreAgainstOf (p : Player) (ms : List Match) : Int :=
  ((playerMatchesOf p ms).map
    (fun m => if m.player1Id == p.id then m.player2Score else m.player1Score)).sum

/-- `avgScoreFor = Math.round((totalScoreFor / playerMatches.length) * 10) / 10`,
`0` on no matches. -/
def avgScoreForOf (p : Player) (ms : List Match) : ℚ :=
  if 0 < (playerMatchesOf p ms).length then
    (jsRound (((totalScoreForOf p ms : ℚ) / ((playerMatchesOf p ms).length : ℚ)) * 10) : ℚ) / 10
  else 0

/-- `avgScoreAgainst`, analogously. -/
def avgScoreAgainstOf (p : Player) (ms : List Match) : ℚ :=
  if 0 < (playerMatchesOf p ms).length then
    (jsRound (((totalScoreAgainstOf p ms : ℚ) / ((playerMatchesOf p ms).length : ℚ)) * 10) : ℚ) / 10
  else 0

/-- `winLossRatio = losses > 0 ? Math.round((wins / losses) * 100) / 100
: wins > 0 ? Infinity : 0`. -/
def winLossRatioOf (p : Player) (ms : List Match) : JNum :=
  if 0 < lossesOf p ms then
    .fin ((jsRound (((winsOf p ms : ℚ) / (lossesOf p ms : ℚ)) * 100) : ℚ) / 100)
  else if 0 < winsOf p ms then .inf
  else .fin 0

/-- `Stats.calculatePlayerStats` (src/unnamed/part_002 lines 13-78). -/
def calculatePlayerStats (p : Player) (ms : List Match) : PlayerStats :=
  { «matches» := (playerMatchesOf p ms).length
    wins := winsOf p ms
    losses := lossesOf p ms
    winPercentage := winPercentageOf p ms
    currentStreak := currentStreakOf p ms
    isWinningStreak := isWinningStreakOf p ms
    avgScoreFor := avgScoreForOf p ms
    avgScoreAgainst := avgScoreAgainstOf p ms
    winLossRatio := winLossRatioOf p ms }

/-- A row of `Stats.generateLeaderboardData` before sorting. -/
structure LeaderboardEntry where
  id : String
  name : String
  «matches» : Nat
  wins : Nat
  losses : Nat
  winPercentage : Int
  currentStreak : Nat
  isWinningStreak : Bool
  deriving DecidableEq, Repr

/-- The row built for one player by `Stats.generateLeaderboardData`. -/
def leaderboardEntryOf (ms : List Match) (p : Player) : LeaderboardEntry :=
  { id := p.id
    name := p.name
    «matches» := (playerMatchesOf p ms).length
    wins := winsOf p ms
    losses := lossesOf p ms
    winPercentage := winPercentageOf p ms
    currentStreak := currentStreakOf p ms
    isWinningStreak := isWinningStreakOf p ms }

/-- The comparator of `Stats.generateLeaderboardData` as a signed number:
win percentage descending, then wins descending, then matches ascending. -/
def leaderboardCompare (a b : LeaderboardEntry) : Int :=
  if b.winPercentage ≠ a.winPercentage then b.winPercentage - a.winPercentage
  else if b.wins ≠ a.wins then (b.wins : Int) - (a.wins : Int)
  else (a.«matches» : Int) - (b.«matches» : Int)

/-- `Stats.generateLeaderboardData` (src/unnamed/part_002 lines 295-320): map
players to rows and sort with the comparator.  JS `Array.prototype.sort` with
a consistent comparator `c` orders the array so that `c` of any earlier and
any later element is `≤ 0`; it is modelled by a stable insertion sort for the
relation `c a b ≤ 0`. -/
def generateLeaderboardData (players : List Player) (ms : List Match) :
    List LeaderboardEntry :=
  List.insertionSort (fun a b => leaderboardCompare a b ≤ 0)
    (players.map (leaderboardEntryOf ms))

/-! ## Spec-side formulations used in theorem statements -/

/-- The streak count as the specification words it: the streak type is the
outcome of the most recent match, and the count walks the remaining outcomes
(in descending-date order) until the first mismatch or exhaustion. -/
def streakSpec (outcomes : List Bool) : Nat :=
  match outcomes with
  | [] => 0
  | b :: rest => 1 + (rest.takeWhile (fun c => c == b)).length

/-- The leaderboard order as the specification words it: win percentage
descending, then total wins descending, then match count ascending. -/
def leaderboardLE (a b : LeaderboardEntry) : Prop :=
  b.winPercentage < a.winPercentage ∨
    (a.winPercentage = b.winPercentage ∧
      (b.wins < a.wins ∨ (a.wins = b.wins ∧ a.«matches» ≤ b.«matches»)))

/-! ## Concrete example data used by witnesses and counterexamples -/

/-- The bundle `{version: 1, matches: [{id: "m1"}]}` of the specification's
validation example. -/
def matchesOnlyBundle : RawBundle :=
  { version := some 1, rooms := none, room := none, players := none,
    «matches» := some [⟨some "m1", none, none, none, none, none, none, none⟩] }

/-- `matchesOnlyBundle` with an (empty) `rooms` array added, so that
validation reaches the `matches` loop. -/
def matchesOnlyWithRoomsBundle : RawBundle :=
  { matchesOnlyBundle with rooms := some ([] : List RawRoom) }

/-- An otherwise-valid bundle whose match has `player1Score: null` and
`player2Score: 0`. -/
def nullScoreBundle : RawBundle :=
  { version := some 1
    rooms := some [⟨some "r1", some "Office"⟩]
    room := none
    players := some [⟨some "p1", some "r1", some "Ann"⟩]
    «matches» := some [⟨some "m1", some "r1", some "p1", some "p2",
      some ScoreVal.jnull, some (ScoreVal.jnum 0), some "p1", some "2024-01-01"⟩] }

/-- A raw match that is valid except that `player1Score` is absent. -/
def scoreMissingRawMatch : RawMatch :=
  ⟨some "m1", some "r1", some "p1", some "p2", none,
    some (ScoreVal.jnum 0), some "p1", some "2024-01-01"⟩

/-- The player of the specification's streak example. -/
def streakPlayer : Player := ⟨"P", "r1", "Pat", "", 0, 0⟩

/-- The specification's streak example: outcomes W, W, L, W for `streakPlayer`
in date-ascending order. -/
def streakMatches : List Match :=
  [⟨"s1", "r1", "P", "Q", 11, 5, "P", "", 1⟩,
   ⟨"s2", "r1", "P", "Q", 11, 7, "P", "", 2⟩,
   ⟨"s3", "r1", "P", "Q", 3, 11, "Q", "", 3⟩,
   ⟨"s4", "r1", "P", "Q", 11, 9, "P", "", 4⟩]

/-- The player of the win/loss-ratio example. -/
def ratioPlayer : Player := ⟨"R", "r1", "Ray", "", 0, 0⟩

/-- One win and three losses for `ratioPlayer`. -/
def ratioMatches : List Match :=
  [⟨"t1", "r1", "R", "S", 11, 5, "R", "", 1⟩,
   ⟨"t2", "r1", "R", "S", 5, 11, "S", "", 2⟩,
   ⟨"t3", "r1", "R", "S", 6, 11, "S", "", 3⟩,
   ⟨"t4", "r1", "R", "S", 7, 11, "S", "", 4⟩]

/-- Players A (2 wins / 2 matches), B (2 wins / 3 matches), C (0 wins /
3 matches) for the leaderboard example. -/
def lbPlayers : List Player :=
  [⟨"A", "r1", "Alice", "", 0, 0⟩,
   ⟨"B", "r1", "Bob", "", 0, 0⟩,
   ⟨"C", "r1", "Cid", "", 0, 0⟩]

/-- Matches realising the leaderboard example: A beats B, A beats C,
B beats C twice. -/
def lbMatches : List Match :=
  [⟨"l1", "r1", "A", "B", 11, 5, "A", "", 1⟩,
   ⟨"l2", "r1", "A", "C", 11, 3, "A", "", 2⟩,
   ⟨"l3", "r1", "B", "C", 11, 7, "B", "", 3⟩,
   ⟨"l4", "r1", "B", "C", 11, 9, "B", "", 4⟩]

/-- A store with room `r1` (2 players, 3 matches) and room `r2`
(1 player, 1 match), for the cascade-delete example. -/
def cascadeStore : Store :=
  { rooms := [⟨"r1", "Main", "", 0, 0⟩, ⟨"r2", "Side", "", 0, 0⟩]
    players := [⟨"p1", "r1", "Ann", "", 0, 0⟩, ⟨"p2", "r1", "Ben", "", 0, 0⟩,
      ⟨"p3", "r2", "Cal", "", 0, 0⟩]
    «matches» := [⟨"m1", "r1", "p1", "p2", 11, 5, "p1", "", 1⟩,
      ⟨"m2", "r1", "p1", "p2", 7, 11, "p2", "", 2⟩,
      ⟨"m3", "r1", "p2", "p1", 11, 9, "p2", "", 3⟩,
      ⟨"m4", "r2", "p3", "p3", 11, 0, "p3", "", 4⟩]
    settings := [] }

/-- A store with no dangling `roomId` references, for the export/import
round-trip witness. -/
def rtStore : Store :=
  { rooms := [⟨"r1", "Main", "", 0, 0⟩, ⟨"r2", "Side", "", 0, 0⟩]
    players := [⟨"p1", "r1", "Ann", "", 0, 0⟩, ⟨"p2", "r2", "Ben", "", 0, 0⟩]
    «matches» := [⟨"m1", "r1", "p1", "p1", 11, 5, "p1", "", 1⟩,
      ⟨"m2", "r2", "p2", "p2", 11, 7, "p2", "", 2⟩]
    settings := [⟨"lastBackupDate", "2024-05-01", 3⟩] }

/-- A store whose only player has a dangling `roomId` (no room `r1` exists);
such stores arise from partial cascade failures or imports, which the data
model explicitly tolerates. -/
def orphanStore : Store :=
  { rooms := [], players := [⟨"p1", "r1", "Ann", "", 0, 0⟩],
    «matches» := [], settings := [] }

/-! ## Theorems -/

/-- C1: every match record stored by `createMatch` has its `winnerId` among
`{player1Id, player2Id}`, and whenever the two scores differ the stored
`winnerId` is the id of the participant with the strictly greater score. -/
theorem createMatch_winner_correct (md : MatchData) (newId : String) (now : Nat) :
    ((createMatch md newId now).winnerId = (createMatch md newId now).player1Id ∨
      (createMatch md newId now).winnerId = (createMatch md newId now).player2Id) ∧
    ((createMatch md newId now).player1Score > (createMatch md newId now).player2Score →
      (createMatch md newId now).winnerId = (createMatch md newId now).player1Id) ∧
    ((createMatch md newId now).player2Score > (createMatch md newId now).player1Score →
      (createMatch md newId now).winnerId = (createMatch md newId now).player2Id) := by
  refine ⟨?_, ?_, ?_⟩
  · by_cases h : md.player1Score > md.player2Score
    · left; simp [createMatch, if_pos h]
    · right; simp [createMatch, if_neg h]
  · intro h
    simp only [createMatch] at h ⊢
    rw [if_pos h]
  · intro h
    simp only [createMatch] at h ⊢
    rw [if_neg (by omega)]

/-- Witness for C1 at a concrete match creation (scores 11 and 5). -/
theorem createMatch_winner_correct_witness :
    (createMatch ⟨"r1", "p1", "p2", 11, 5, none⟩ "m1" 7).player1Score >
      (createMatch ⟨"r1", "p1", "p2", 11, 5, none⟩ "m1" 7).player2Score ∧
    (createMatch ⟨"r1", "p1", "p2", 11, 5, none⟩ "m1" 7).winnerId =
      (createMatch ⟨"r1", "p1", "p2", 11, 5, none⟩ "m1" 7).player1Id :=
  ⟨by decide,
   (createMatch_winner_correct ⟨"r1", "p1", "p2", 11, 5, none⟩ "m1" 7).2.1 (by decide)⟩

/-- C8: an optional field omitted from the creation input is stored as the
empty string: `description` for rooms, `nickname` for players, `notes` for
matches. -/
theorem create_optional_fields_default_empty (rd : RoomData) (pd : PlayerData)
    (md : MatchData) (newId : String) (now : Nat)
    (hr : rd.description = none) (hp : pd.nickname = none) (hm : md.notes = none) :
    (createRoom rd newId now).description = "" ∧
    (createPlayer pd newId now).nickname = "" ∧
    (createMatch md newId now).notes = "" := by
  refine ⟨?_, ?_, ?_⟩ <;> simp [createRoom, createPlayer, createMatch, hr, hp, hm, orEmpty]

/-- Witness for C8 at concrete creation inputs with the optional fields absent. -/
theorem create_optional_fields_default_empty_witness :
    (createRoom ⟨"Office", none⟩ "x1" 7).description = "" ∧
    (createPlayer ⟨"r1", "Ann", none⟩ "x1" 7).nickname = "" ∧
    (createMatch ⟨"r1", "p1", "p2", 11, 5, none⟩ "x1" 7).notes = "" :=
  create_optional_fields_default_empty ⟨"Office", none⟩ ⟨"r1", "Ann", none⟩
    ⟨"r1", "p1", "p2", 11, 5, none⟩ "x1" 7 rfl rfl rfl

/-- C9: `getSetting` returns `null` (modelled `none`) when the key is not in
the settings collection, and the stored record's `value` field (not the whole
record) when it is. -/
theorem getSetting_absent_null_present_value (s : Store) (k : String) :
    ((∀ r ∈ s.settings, r.id ≠ k) → getSetting s k = none) ∧
    (∀ r : Setting, lookupByKey Setting.id s.settings k = some r →
      getSetting s k = some r.value) := by
  constructor
  · intro h
    have hnone : lookupByKey Setting.id s.settings k = none := by
      simp only [lookupByKey, List.find?_eq_none]
      intro r hr
      simpa using h r hr
    simp [getSetting, hnone]
  · intro r hr
    simp [getSetting, hr]

/-- Witness for C9 on a one-setting store: a missing key yields `none`, a
present key yields the stored value. -/
theorem getSetting_absent_null_present_value_witness :
    getSetting ⟨[], [], [], [⟨"lastBackupDate", "2024-05-01", 3⟩]⟩ "missing" = none ∧
    getSetting ⟨[], [], [], [⟨"lastBackupDate", "2024-05-01", 3⟩]⟩ "lastBackupDate" =
      some "2024-05-01" :=
  ⟨(getSetting_absent_null_present_value ⟨[], [], [], [⟨"lastBackupDate", "2024-05-01", 3⟩]⟩
      "missing").1 (by decide),
   (getSetting_absent_null_present_value ⟨[], [], [], [⟨"lastBackupDate", "2024-05-01", 3⟩]⟩
      "lastBackupDate").2 ⟨"lastBackupDate", "2024-05-01", 3⟩ (by decide)⟩

/-- Helper: two `missingAt` messages that agree on the entity and the index
can only be equal if their field names are equal. -/
theorem missingAt_field_eq (entity : String) (i : Nat) (f g : String)
    (h : missingAt entity i f = missingAt entity i g) : f = g := by
  unfold missingAt at h
  have h2 := congrArg String.data h
  simp only [String.data_append] at h2
  have h3 := List.append_cancel_left h2
  cases f
  cases g
  exact congrArg String.mk h3

/-- C3 as stated fails on the code: `validate({version: 1, matches: [{id: "m1"}]})`
raises the missing-`rooms`/`room` error, not the match-index-0 error the claim
names. -/
theorem validateImportData_matches_only_counterexample :
    validateImportData matchesOnlyBundle =
      Except.error "Invalid data format: Missing rooms or room" ∧
    validateImportData matchesOnlyBundle ≠
      Except.error "Invalid data format: Match at index 0 is missing roomId" := by
  constructor
  · decide
  · decide

/-- C3 (amended): `validate({})` raises the missing-`version` error, and a
bundle with `version`, a `rooms` array and `matches: [{id: "m1"}]` raises the
error citing match index 0 missing `roomId`. -/
theorem validateImportData_cited_errors :
    validateImportData emptyRawBundle =
      Except.error "Invalid data format: Missing version" ∧
    validateImportData matchesOnlyWithRoomsBundle =
      Except.error "Invalid data format: Match at index 0 is missing roomId" := by
  constructor
  · decide
  · decide

/-- C10: the match check rejects a score field only when it is exactly
`undefined` (`none`): an error message naming `player1Score`/`player2Score`
forces the field to be absent; and the otherwise-valid bundle whose match has
`player1Score: null` and `player2Score: 0` validates without error. -/
theorem score_error_only_when_undefined (i : Nat) (m : RawMatch) :
    (checkMatchAt i m = Except.error (missingAt "Match" i "player1Score") →
      m.player1Score = none) ∧
    (checkMatchAt i m = Except.error (missingAt "Match" i "player2Score") →
      m.player2Score = none) ∧
    validateImportData nullScoreBundle = Except.ok () := by
  refine ⟨?_, ?_, by decide⟩
  all_goals intro h
  all_goals unfold checkMatchAt at h
  all_goals split_ifs at h with h1 h2 h3 h4 h5 h6 h7 h8
  all_goals
    first
      | exact Option.isNone_iff_eq_none.mp h5
      | exact Option.isNone_iff_eq_none.mp h6
      | exact absurd (missingAt_field_eq _ _ _ _ (Except.error.inj h)) (by decide)

/-- Witness for C10: the validator's error for the concrete match missing
`player1Score` indeed forces that field to be absent. -/
theorem score_error_only_when_undefined_witness :
    scoreMissingRawMatch.player1Score = none :=
  (score_error_only_when_undefined 0 scoreMissingRawMatch).1 (by decide)

/-- Helper: the streak loop counts the leading matches of the list whose
outcome for `pid` equals the streak type `b`. -/
theorem streakLoop_eq_takeWhile (pid : String) (b : Bool) (l : List Match) :
    streakLoop pid b l =
      (l.takeWhile (fun m => (m.winnerId == pid) == b)).length := by
  induction l with
  | nil => rfl
  | cons m rest ih =>
    by_cases h : ((m.winnerId == pid) == b) = true
    · simp only [streakLoop, h, if_true, List.takeWhile_cons, List.length_cons, ih]
      omega
    · simp only [streakLoop, h, if_false, List.takeWhile_cons]
      simp only [Bool.not_eq_true] at h
      simp [h]

/-- C4: the current streak of `calculatePlayerStats` is exactly the
specification's algorithm — sort the player's matches by date descending,
take the streak type from the most recent outcome, and count consecutive
equal outcomes; and the W,W,L,W example yields streak 1, winning. -/
theorem playerStats_streak (p : Player) (ms : List Match) :
    (calculatePlayerStats p ms).currentStreak =
      streakSpec ((sortByDateDesc (playerMatchesOf p ms)).map
        (fun m => m.winnerId == p.id)) ∧
    (calculatePlayerStats p ms).isWinningStreak =
      ((sortByDateDesc (playerMatchesOf p ms)).head?.elim false
        (fun m => m.winnerId == p.id)) ∧
    (calculatePlayerStats streakPlayer streakMatches).currentStreak = 1 ∧
    (calculatePlayerStats streakPlayer streakMatches).isWinningStreak = true := by
  refine ⟨?_, ?_, by decide, by decide⟩
  · show currentStreakOf p ms = _
    unfold currentStreakOf isWinningStreakOf
    cases hs : sortByDateDesc (playerMatchesOf p ms) with
    | nil => simp [streakSpec]
    | cons m0 rest =>
      simp only [streakSpec, List.map_cons]
      rw [streakLoop_eq_takeWhile, List.takeWhile_map, List.length_map]
      rfl
  · show isWinningStreakOf p ms = _
    unfold isWinningStreakOf
    cases hs : sortByDateDesc (playerMatchesOf p ms) <;> simp

/-- C6 as stated fails on the code: with 1 win and 3 losses the stored
`winLossRatio` is the two-decimal rounding 0.33, not `wins / losses = 1/3`. -/
theorem winLossRatio_counterexample :
    (calculatePlayerStats ratioPlayer ratioMatches).wins = 1 ∧
    (calculatePlayerStats ratioPlayer ratioMatches).losses = 3 ∧
    (calculatePlayerStats ratioPlayer ratioMatches).winLossRatio ≠
      JNum.fin ((1 : ℚ) / 3) ∧
    (calculatePlayerStats ratioPlayer ratioMatches).winLossRatio =
      JNum.fin ((33 : ℚ) / 100) := by
  have hw : winsOf ratioPlayer ratioMatches = 1 := by decide
  have hl : lossesOf ratioPlayer ratioMatches = 3 := by decide
  have he : winLossRatioOf ratioPlayer ratioMatches = JNum.fin ((33 : ℚ) / 100) := by
    unfold winLossRatioOf
    rw [hw, hl]
    norm_num [jsRound]
  refine ⟨hw, hl, ?_, he⟩
  show winLossRatioOf ratioPlayer ratioMatches ≠ _
  rw [he]
  simp only [ne_eq, JNum.fin.injEq]
  norm_num

/-- C6 (amended): `winLossRatio` equals `round((wins / losses) * 100) / 100`
(the ratio rounded to two decimals) when `losses > 0`, `Infinity` when
`losses = 0 < wins`, and `0` when `wins = losses = 0`. -/
theorem playerStats_winLossRatio (p : Player) (ms : List Match) :
    (0 < (calculatePlayerStats p ms).losses →
      (calculatePlayerStats p ms).winLossRatio = JNum.fin
        ((jsRound ((((calculatePlayerStats p ms).wins : ℚ) /
            ((calculatePlayerStats p ms).losses : ℚ)) * 100) : ℚ) / 100)) ∧
    ((calculatePlayerStats p ms).losses = 0 → 0 < (calculatePlayerStats p ms).wins →
      (calculatePlayerStats p ms).winLossRatio = JNum.inf) ∧
    ((calculatePlayerStats p ms).wins = 0 → (calculatePlayerStats p ms).losses = 0 →
      (calculatePlayerStats p ms).winLossRatio = JNum.fin 0) := by
  refine ⟨?_, ?_, ?_⟩
  · intro h
    have h' : 0 < lossesOf p ms := h
    show winLossRatioOf p ms = _
    unfold winLossRatioOf
    rw [if_pos h']
    rfl
  · intro h1 h2
    have h1' : lossesOf p ms = 0 := h1
    have h2' : 0 < winsOf p ms := h2
    show winLossRatioOf p ms = _
    unfold winLossRatioOf
    rw [if_neg (by omega), if_pos h2']
  · intro h1 h2
    have h1' : winsOf p ms = 0 := h1
    have h2' : lossesOf p ms = 0 := h2
    show winLossRatioOf p ms = _
    unfold winLossRatioOf
    rw [if_neg (by omega), if_neg (by omega)]

/-- Witness for C6 (amended) at the 1-win/3-loss example. -/
theorem playerStats_winLossRatio_witness :
    0 < (calculatePlayerStats ratioPlayer ratioMatches).losses ∧
    (calculatePlayerStats ratioPlayer ratioMatches).winLossRatio = JNum.fin
      ((jsRound ((((calculatePlayerStats ratioPlayer ratioMatches).wins : ℚ) /
          ((calculatePlayerStats ratioPlayer ratioMatches).losses : ℚ)) * 100) : ℚ) / 100) :=
  ⟨by decide, (playerStats_winLossRatio ratioPlayer ratioMatches).1 (by decide)⟩

/-- Helper: the leaderboard comparator is antisymmetric as a signed number. -/
theorem leaderboardCompare_neg (a b : LeaderboardEntry) :
    leaderboardCompare b a = -leaderboardCompare a b := by
  unfold leaderboardCompare
  split_ifs <;> omega

/-- Helper: a nonpositive comparator value is exactly the specification's
leaderboard order. -/
theorem leaderboardCompare_le_iff (a b : LeaderboardEntry) :
    leaderboardCompare a b ≤ 0 ↔ leaderboardLE a b := by
  unfold leaderboardCompare leaderboardLE
  split_ifs <;> omega

/-- C5: the leaderboard is the per-player stats rows sorted by win percentage
descending, then wins descending, then match count ascending; and in the
concrete example A (2 wins / 2 matches) is ranked above B (2 wins / 3
matches). -/
theorem leaderboard_ordering (players : List Player) (ms : List Match) :
    List.Sorted leaderboardLE (generateLeaderboardData players ms) ∧
    (generateLeaderboardData players ms).Perm
      (players.map (leaderboardEntryOf ms)) ∧
    (generateLeaderboardData lbPlayers lbMatches).map LeaderboardEntry.id =
      ["A", "B", "C"] := by
  haveI instTot : IsTotal LeaderboardEntry (fun a b => leaderboardCompare a b ≤ 0) := by
    constructor
    intro a b
    have := leaderboardCompare_neg a b
    show leaderboardCompare a b ≤ 0 ∨ leaderboardCompare b a ≤ 0
    omega
  haveI instTrans : IsTrans LeaderboardEntry (fun a b => leaderboardCompare a b ≤ 0) := by
    constructor
    intro a b c hab hbc
    have hab' : leaderboardLE a b := (leaderboardCompare_le_iff a b).mp hab
    have hbc' : leaderboardLE b c := (leaderboardCompare_le_iff b c).mp hbc
    show leaderboardCompare a c ≤ 0
    rw [leaderboardCompare_le_iff]
    unfold leaderboardLE at hab' hbc' ⊢
    omega
  refine ⟨?_, ?_, ?_⟩
  · have hs := List.sorted_insertionSort (fun a b => leaderboardCompare a b ≤ 0)
      (players.map (leaderboardEntryOf ms))
    exact hs.imp (fun hab => (leaderboardCompare_le_iff _ _).mp hab)
  · exact List.perm_insertionSort _ _
  · have hwA : winPercentageOf ⟨"A", "r1", "Alice", "", 0, 0⟩ lbMatches = 100 := by
      have h1 : (playerMatchesOf ⟨"A", "r1", "Alice", "", 0, 0⟩ lbMatches).length = 2 := by
        decide
      have h2 : winsOf ⟨"A", "r1", "Alice", "", 0, 0⟩ lbMatches = 2 := by decide
      unfold winPercentageOf
      rw [h1, h2]
      norm_num [jsRound]
    have hwB : winPercentageOf ⟨"B", "r1", "Bob", "", 0, 0⟩ lbMatches = 67 := by
      have h1 : (playerMatchesOf ⟨"B", "r1", "Bob", "", 0, 0⟩ lbMatches).length = 3 := by
        decide
      have h2 : winsOf ⟨"B", "r1", "Bob", "", 0, 0⟩ lbMatches = 2 := by decide
      unfold winPercentageOf
      rw [h1, h2]
      norm_num [jsRound]
    have hwC : winPercentageOf ⟨"C", "r1", "Cid", "", 0, 0⟩ lbMatches = 0 := by
      have h1 : (playerMatchesOf ⟨"C", "r1", "Cid", "", 0, 0⟩ lbMatches).length = 3 := by
        decide
      have h2 : winsOf ⟨"C", "r1", "Cid", "", 0, 0⟩ lbMatches = 0 := by decide
      unfold winPercentageOf
      rw [h1, h2]
      norm_num [jsRound]
    have hA : leaderboardEntryOf lbMatches ⟨"A", "r1", "Alice", "", 0, 0⟩ =
        ⟨"A", "Alice", 2, 2, 0, 100, 2, true⟩ := by
      unfold leaderboardEntryOf
      rw [hwA]
      decide
    have hB : leaderboardEntryOf lbMatches ⟨"B", "r1", "Bob", "", 0, 0⟩ =
        ⟨"B", "Bob", 3, 2, 1, 67, 2, true⟩ := by
      unfold leaderboardEntryOf
      rw [hwB]
      decide
    have hC : leaderboardEntryOf lbMatches ⟨"C", "r1", "Cid", "", 0, 0⟩ =
        ⟨"C", "Cid", 3, 0, 3, 0, 3, false⟩ := by
      unfold leaderboardEntryOf
      rw [hwC]
      decide
    unfold generateLeaderboardData lbPlayers
    simp only [List.map_cons, List.map_nil, hA, hB, hC]
    decide

/-- Helper: folding key-deletions of the elements of `xs` over `l` keeps
exactly the records of `l` whose key differs from every key of `xs`. -/
theorem foldl_deleteByKey (key : α → String) (xs l : List α) :
    xs.foldl (fun acc x => deleteByKey key acc (key x)) l =
      l.filter (fun y => xs.all (fun x => key y != key x)) := by
  induction xs generalizing l with
  | nil => simp
  | cons x xs ih =>
    simp only [List.foldl_cons]
    rw [ih]
    unfold deleteByKey
    rw [List.filter_filter]
    apply List.filter_congr
    intro y hy
    simp [List.all_cons, Bool.and_comm]

/-- Helper: the player-deletion fold only rewrites the `players` collection
of the store. -/
theorem foldl_store_players (l : List Player) (s : Store) :
    l.foldl (fun st p =>
        { st with players := deleteByKey Player.id st.players p.id }) s =
      { s with players :=
          l.foldl (fun acc p => deleteByKey Player.id acc p.id) s.players } := by
  induction l generalizing s with
  | nil => rfl
  | cons p l ih =>
    simp only [List.foldl_cons]
    rw [ih]

/-- Helper: the match-deletion fold only rewrites the `matches` collection
of the store. -/
theorem foldl_store_matches (l : List Match) (s : Store) :
    l.foldl (fun st m =>
        { st with «matches» := deleteByKey Match.id st.«matches» m.id }) s =
      { s with «matches» :=
          l.foldl (fun acc m => deleteByKey Match.id acc m.id) s.«matches» } := by
  induction l generalizing s with
  | nil => rfl
  | cons m l ih =>
    simp only [List.foldl_cons]
    rw [ih]

/-- Helper: when keys are unique, deleting (by key) every record of the
group `grp = v` from `l` is the same as filtering the group out. -/
theorem filter_all_ne_eq_filter_grp (key grp : α → String) (l : List α)
    (v : String) (h : (l.map key).Nodup) :
    l.filter (fun y => (l.filter (fun x => grp x == v)).all
        (fun x => key y != key x)) =
      l.filter (fun y => grp y != v) := by
  apply List.filter_congr
  intro y hy
  by_cases hr : grp y = v
  · have hmem : y ∈ l.filter (fun x => grp x == v) :=
      List.mem_filter.mpr ⟨hy, by simp [hr]⟩
    have h1 : ((l.filter (fun x => grp x == v)).all
        (fun x => key y != key x)) = false :=
      List.all_eq_false.mpr ⟨y, hmem, by simp⟩
    rw [h1, hr]
    simp
  · have h1 : ((l.filter (fun x => grp x == v)).all
        (fun x => key y != key x)) = true := by
      rw [List.all_eq_true]
      intro x hx
      have hx1 := List.mem_filter.mp hx
      have hxl : x ∈ l := hx1.1
      have hxv : grp x = v := by simpa using hx1.2
      simp only [bne_iff_ne, ne_eq]
      intro heq
      have hyx : y = x := List.inj_on_of_nodup_map h hy hxl heq
      rw [hyx] at hr
      exact hr hxv
    rw [h1]
    simp [hr]

/-- C7: `deleteRoom` cascades — afterwards the room record is gone, no player
or match with the room's id remains, and the records of other rooms are
exactly preserved (the collections equal the original ones with the room's
records filtered out). -/
theorem deleteRoom_cascade (s : Store) (rid : String)
    (hp : (s.players.map Player.id).Nodup)
    (hm : (s.«matches».map Match.id).Nodup) :
    (deleteRoom s rid).rooms = s.rooms.filter (fun r => r.id != rid) ∧
    (deleteRoom s rid).players = s.players.filter (fun p => p.roomId != rid) ∧
    (deleteRoom s rid).«matches» = s.«matches».filter (fun m => m.roomId != rid) ∧
    (∀ p ∈ (deleteRoom s rid).players, p.roomId ≠ rid) ∧
    (∀ m ∈ (deleteRoom s rid).«matches», m.roomId ≠ rid) ∧
    (∀ r ∈ (deleteRoom s rid).rooms, r.id ≠ rid) := by
  have hres : deleteRoom s rid =
      { rooms := s.rooms.filter (fun r => r.id != rid)
        players := s.players.filter (fun p => p.roomId != rid)
        «matches» := s.«matches».filter (fun m => m.roomId != rid)
        settings := s.settings } := by
    unfold deleteRoom
    simp only [deleteAllPlayersInRoom, deleteAllMatchesInRoom, getPlayersInRoom,
      getMatchesInRoom]
    rw [foldl_store_players]
    rw [foldl_store_matches]
    simp only
    rw [foldl_deleteByKey Player.id]
    rw [foldl_deleteByKey Match.id]
    rw [filter_all_ne_eq_filter_grp Player.id Player.roomId _ _ hp]
    rw [filter_all_ne_eq_filter_grp Match.id Match.roomId _ _ hm]
    rfl
  rw [hres]
  refine ⟨rfl, rfl, rfl, ?_, ?_, ?_⟩
  · intro p hpmem
    have := (List.mem_filter.mp hpmem).2
    simpa using this
  · intro m hmmem
    have := (List.mem_filter.mp hmmem).2
    simpa using this
  · intro r hrmem
    have := (List.mem_filter.mp hrmem).2
    simpa using this

/-- Witness for C7: deleting room `r1` (2 players, 3 matches) from the
two-room example store leaves exactly the `r2` records. -/
theorem deleteRoom_cascade_witness :
    (deleteRoom cascadeStore "r1").players =
      cascadeStore.players.filter (fun p => p.roomId != "r1") ∧
    (deleteRoom cascadeStore "r1").«matches» =
      cascadeStore.«matches».filter (fun m => m.roomId != "r1") :=
  ⟨(deleteRoom_cascade cascadeStore "r1" (by decide) (by decide)).2.1,
   (deleteRoom_cascade cascadeStore "r1" (by decide) (by decide)).2.2.1⟩

/-- Helper: `put` of a record whose key is absent from the collection
appends it. -/
theorem putByKey_of_fresh (key : α → String) (l : List α) (x : α)
    (h : ∀ y ∈ l, key y ≠ key x) : putByKey key l x = l ++ [x] := by
  unfold putByKey
  rw [if_neg]
  simp only [List.any_eq_true, beq_iff_eq, not_exists, not_and]
  exact h

/-- Helper: `put`-importing records with pairwise distinct keys, none of which
occurs in the target collection, appends them in order. -/
theorem foldl_putByKey_append (key : α → String) (xs : List α) :
    ∀ acc : List α, (∀ x ∈ xs, ∀ y ∈ acc, key y ≠ key x) →
      (xs.map key).Nodup → xs.foldl (putByKey key) acc = acc ++ xs := by
  induction xs with
  | nil => intro acc _ _; simp
  | cons x xs ih =>
    intro acc hdisj hnodup
    simp only [List.map_cons, List.nodup_cons] at hnodup
    simp only [List.foldl_cons]
    rw [putByKey_of_fresh key acc x (fun y hy => hdisj x (by simp) y hy)]
    rw [ih (acc ++ [x]) ?_ hnodup.2]
    · simp
    · intro z hz y hy
      rcases List.mem_append.mp hy with h | h
      · exact hdisj z (by simp [hz]) y h
      · have hyx : y = x := by simpa using h
        subst hyx
        intro heq
        exact hnodup.1 (by rw [heq]; exact List.mem_map_of_mem key hz)

/-- Helper: membership in the per-room grouped sublists of the export. -/
theorem mem_grouped (rooms : List Room) (grp : α → String) (l : List α) (x : α) :
    (x ∈ (rooms.map (fun r => l.filter (fun y => grp y == r.id))).flatten) ↔
      (x ∈ l ∧ ∃ r ∈ rooms, grp x = r.id) := by
  constructor
  · intro hx
    rcases List.mem_flatten.mp hx with ⟨l', hl', hxl'⟩
    rcases List.mem_map.mp hl' with ⟨r, hr, rfl⟩
    have hm := List.mem_filter.mp hxl'
    exact ⟨hm.1, r, hr, by simpa using hm.2⟩
  · rintro ⟨hxl, r, hr, hgrp⟩
    refine List.mem_flatten.mpr ⟨_, List.mem_map.mpr ⟨r, hr, rfl⟩, ?_⟩
    exact List.mem_filter.mpr ⟨hxl, by simp [hgrp]⟩

/-- Helper: when room ids and record keys are unique, the keys of the
per-room grouped records are unique as well. -/
theorem grouped_keys_nodup (rooms : List Room) (key grp : α → String)
    (l : List α) (hR : (rooms.map Room.id).Nodup) (hK : (l.map key).Nodup) :
    ((((rooms.map (fun r => l.filter (fun y => grp y == r.id))).flatten).map key)).Nodup := by
  rw [List.map_flatten, List.map_map, List.nodup_flatten]
  constructor
  · intro s hs
    rcases List.mem_map.mp hs with ⟨r, _, rfl⟩
    exact hK.sublist ((List.filter_sublist l).map key)
  · have hpr : rooms.Pairwise (fun r1 r2 => r1.id ≠ r2.id) :=
      List.pairwise_map.mp hR
    refine List.pairwise_map.mpr (hpr.imp ?_)
    intro r1 r2 hne
    intro k hk1 hk2
    rcases List.mem_map.mp hk1 with ⟨x, hx, rfl⟩
    rcases List.mem_map.mp hk2 with ⟨y, hy, hkey⟩
    have hx1 := List.mem_filter.mp hx
    have hy1 := List.mem_filter.mp hy
    have hxy : y = x := List.inj_on_of_nodup_map hK hy1.1 hx1.1 hkey
    apply hne
    have h1 : grp x = r1.id := by simpa using hx1.2
    have h2 : grp y = r2.id := by simpa using hy1.2
    rw [← h1, ← hxy, h2]

/-- Helper: when keys are unique and every record's room is present, primary
key lookup in the per-room grouped records agrees with lookup in the
original collection. -/
theorem grouped_lookup_eq (rooms : List Room) (key grp : α → String)
    (l : List α) (hK : (l.map key).Nodup)
    (horph : ∀ x ∈ l, ∃ r ∈ rooms, grp x = r.id) (k : String) :
    lookupByKey key ((rooms.map (fun r => l.filter (fun y => grp y == r.id))).flatten) k =
      lookupByKey key l k := by
  unfold lookupByKey
  cases hl : l.find? (fun x => key x == k) with
  | none =>
    rw [List.find?_eq_none] at hl ⊢
    intro x hx
    exact hl x ((mem_grouped rooms grp l x).mp hx).1
  | some v =>
    have hvl : v ∈ l := List.mem_of_find?_eq_some hl
    have hvk : key v = k := by simpa using List.find?_some hl
    have hvg := (mem_grouped rooms grp l v).mpr ⟨hvl, horph v hvl⟩
    have hsome : (((rooms.map (fun r => l.filter (fun y => grp y == r.id))).flatten).find?
        (fun x => key x == k)).isSome :=
      List.find?_isSome.mpr ⟨v, hvg, by simp [hvk]⟩
    rcases Option.isSome_iff_exists.mp hsome with ⟨w, hw⟩
    rw [hw]
    have hwg := List.mem_of_find?_eq_some hw
    have hwk : key w = k := by simpa using List.find?_some hw
    have hwl : w ∈ l := ((mem_grouped rooms grp l w).mp hwg).1
    have hwv : w = v := List.inj_on_of_nodup_map hK hwl hvl (by rw [hwk, hvk])
    rw [hwv]

/-- C2 as stated fails on the code: a store whose only player has a dangling
`roomId` exports an empty `players` array (the export gathers players per
existing room), so the round trip loses that record. -/
theorem export_import_roundtrip_counterexample :
    importData emptyStore (exportAllData orphanStore 0) = some emptyStore ∧
    lookupByKey Player.id emptyStore.players "p1" = none ∧
    lookupByKey Player.id orphanStore.players "p1" =
      some ⟨"p1", "r1", "Ann", "", 0, 0⟩ := by
  refine ⟨by decide, by decide, by decide⟩

/-- C2 (amended): for every store with unique ids per collection and no
dangling `roomId` references, importing the bundle produced by `exportAllData`
into the empty store succeeds and yields a store whose collections contain,
by id, exactly the records of the original store. -/
theorem export_import_roundtrip (s : Store) (now : Nat)
    (hR : (s.rooms.map Room.id).Nodup)
    (hP : (s.players.map Player.id).Nodup)
    (hM : (s.«matches».map Match.id).Nodup)
    (hS : (s.settings.map Setting.id).Nodup)
    (hOP : ∀ p ∈ s.players, ∃ r ∈ s.rooms, p.roomId = r.id)
    (hOM : ∀ m ∈ s.«matches», ∃ r ∈ s.rooms, m.roomId = r.id) :
    ∃ t : Store, importData emptyStore (exportAllData s now) = some t ∧
      (∀ k, lookupByKey Room.id t.rooms k = lookupByKey Room.id s.rooms k) ∧
      (∀ k, lookupByKey Player.id t.players k = lookupByKey Player.id s.players k) ∧
      (∀ k, lookupByKey Match.id t.«matches» k = lookupByKey Match.id s.«matches» k) ∧
      (∀ k, lookupByKey Setting.id t.settings k = lookupByKey Setting.id s.settings k) := by
  have hGP := grouped_keys_nodup s.rooms Player.id Player.roomId s.players hR hP
  have hGM := grouped_keys_nodup s.rooms Match.id Match.roomId s.«matches» hR hM
  have hrooms : s.rooms.foldl (putByKey Room.id) ([] : List Room) = s.rooms := by
    have h := foldl_putByKey_append Room.id s.rooms [] (by simp) hR
    simpa using h
  have hplayers :
      ((s.rooms.map (fun r => s.players.filter (fun y => y.roomId == r.id))).flatten).foldl
        (putByKey Player.id) ([] : List Player) =
      (s.rooms.map (fun r => s.players.filter (fun y => y.roomId == r.id))).flatten := by
    have h := foldl_putByKey_append Player.id
      ((s.rooms.map (fun r => s.players.filter (fun y => y.roomId == r.id))).flatten)
      [] (by simp) hGP
    simpa using h
  have hmatches :
      ((s.rooms.map (fun r => s.«matches».filter (fun y => y.roomId == r.id))).flatten).foldl
        (putByKey Match.id) ([] : List Match) =
      (s.rooms.map (fun r => s.«matches».filter (fun y => y.roomId == r.id))).flatten := by
    have h := foldl_putByKey_append Match.id
      ((s.rooms.map (fun r => s.«matches».filter (fun y => y.roomId == r.id))).flatten)
      [] (by simp) hGM
    simpa using h
  have hsettings : s.settings.foldl (putByKey Setting.id) ([] : List Setting) = s.settings := by
    have h := foldl_putByKey_append Setting.id s.settings [] (by simp) hS
    simpa using h
  refine ⟨{ rooms := s.rooms
            players := (s.rooms.map (fun r => s.players.filter (fun y => y.roomId == r.id))).flatten
            «matches» := (s.rooms.map (fun r => s.«matches».filter (fun y => y.roomId == r.id))).flatten
            settings := s.settings }, ?_, ?_, ?_, ?_, ?_⟩
  · show some _ = some _
    rw [Option.some.injEq]
    simp only [exportAllData, emptyStore, getPlayersInRoom, getMatchesInRoom]
    rw [hrooms, hplayers, hmatches, hsettings]
  · intro k
    rfl
  · intro k
    exact grouped_lookup_eq s.rooms Player.id Player.roomId s.players hP hOP k
  · intro k
    exact grouped_lookup_eq s.rooms Match.id Match.roomId s.«matches» hM hOM k
  · intro k
    rfl

/-- Witness for C2 (amended) at a two-room store with players, matches and a
setting. -/
theorem export_import_roundtrip_witness :
    ∃ t : Store, importData emptyStore (exportAllData rtStore 9) = some t ∧
      (∀ k, lookupByKey Room.id t.rooms k = lookupByKey Room.id rtStore.rooms k) ∧
      (∀ k, lookupByKey Player.id t.players k =
        lookupByKey Player.id rtStore.players k) ∧
      (∀ k, lookupByKey Match.id t.«matches» k =
        lookupByKey Match.id rtStore.«matches» k) ∧
      (∀ k, lookupByKey Setting.id t.settings k =
        lookupByKey Setting.id rtStore.settings k) :=
  export_import_roundtrip rtStore 9 (by decide) (by decide) (by decide)
    (by decide) (by decide) (by decide)

end PingPong
